import Mathlib

/-!
Shallow embedding of the PPE monitoring service (src/app.py) and proofs
about its compliance analyzer, alerting, resolve and aggregation logic.

Modelling conventions:
* Python booleans / SQLite INTEGER 0-1 flags become `Bool`.
* The analyzer input is a Python dict that may omit PPE keys
  (`detection_data.get(ppe, 0)`), modelled as `Option Bool` fields.
* SQL DATETIME timestamps are modelled at calendar-day granularity
  (an `Int` day index), because every date-sensitive query in the source
  compares `DATE(timestamp)` against a calendar date.
* Python's `round(x, 1)` on floats is modelled as exact rational rounding
  to one decimal (`pyRound1`).  Python rounds halves to even over binary
  floats; at every call site proved concretely below the argument is not a
  half-way case, so the distinction is immaterial.
* Fallible or effectful code becomes explicit state passing on `Store`.
-/

/-- Rounding to one decimal place, as `round(x, 1)` in the source. -/
def pyRound1 (x : ℚ) : ℚ := (round (10 * x) : ℚ) / 10

/-- Input of `analyze_ppe_compliance`: a mapping that may omit any of the
six PPE keys (`none` models an absent dict key, looked up with
`detection_data.get(ppe, 0)`). -/
structure DetectionData where
  helmet : Option Bool
  vest : Option Bool
  gloves : Option Bool
  goggles : Option Bool
  boots : Option Bool
  mask : Option Bool

/-- A fully specified combination of the six PPE flags. -/
structure PPEFlags where
  helmet : Bool
  vest : Bool
  gloves : Bool
  goggles : Bool
  boots : Bool
  mask : Bool

/-- View a full flag combination as analyzer input with every key present. -/
def flagsData (f : PPEFlags) : DetectionData :=
  ⟨some f.helmet, some f.vest, some f.gloves, some f.goggles, some f.boots, some f.mask⟩

/-- Fill the missing keys of an analyzer input with `false`, the default the
source supplies via `detection_data.get(ppe, 0)`. -/
def fillMissing (d : DetectionData) : DetectionData :=
  ⟨some (d.helmet.getD false), some (d.vest.getD false), some (d.gloves.getD false),
   some (d.goggles.getD false), some (d.boots.getD false), some (d.mask.getD false)⟩

/-- Result dict of `analyze_ppe_compliance`. -/
structure Compliance where
  required_missing : List String
  optional_missing : List String
  compliance_score : ℚ
  status : String
deriving DecidableEq

/-- Embedding of `PPEAnalyzer.analyze_ppe_compliance` (src/app.py lines
64-97).  The two Python loops over the fixed lists
`required_ppe = ['helmet', 'vest', 'gloves']` and
`optional_ppe = ['goggles', 'boots', 'mask']` are unrolled; each item is
looked up with `detection_data.get(ppe, 0)` and appended to the missing
list when falsy, in list order. -/
def analyze_ppe_compliance (d : DetectionData) : Compliance :=
  let required_missing : List String :=
    (if d.helmet.getD false then [] else [("helmet")]) ++
    (if d.vest.getD false then [] else [("vest")]) ++
    (if d.gloves.getD false then [] else [("gloves")])
  let optional_missing : List String :=
    (if d.goggles.getD false then [] else [("goggles")]) ++
    (if d.boots.getD false then [] else [("boots")]) ++
    (if d.mask.getD false then [] else [("mask")])
  let required_score : ℚ := (1 - (required_missing.length : ℚ) / 3) * 70
  let optional_score : ℚ := (1 - (optional_missing.length : ℚ) / 3) * 30
  let compliance_score : ℚ := pyRound1 (required_score + optional_score)
  let status : String :=
    if required_missing ≠ [] then ("Non-Compliant")
    else if compliance_score < 80 then ("Partially Compliant")
    else ("Compliant")
  ⟨required_missing, optional_missing, compliance_score, status⟩

/-- Number of required PPE items (helmet, vest, gloves) present. -/
def spec_requiredPresent (f : PPEFlags) : ℕ :=
  (if f.helmet then 1 else 0) + (if f.vest then 1 else 0) + (if f.gloves then 1 else 0)

/-- Number of optional PPE items (goggles, boots, mask) present. -/
def spec_optionalPresent (f : PPEFlags) : ℕ :=
  (if f.goggles then 1 else 0) + (if f.boots then 1 else 0) + (if f.mask then 1 else 0)

/-- Compliance score as worded by the spec: 70 times the fraction of
required PPE present plus 30 times the fraction of optional PPE present,
rounded to one decimal. -/
def spec_compliance_score (f : PPEFlags) : ℚ :=
  pyRound1 (70 * ((spec_requiredPresent f : ℚ) / 3) + 30 * ((spec_optionalPresent f : ℚ) / 3))

/-- Status rule as worded by the spec: Non-Compliant iff any required item
is missing; else Partially Compliant iff the score is strictly below 80;
else Compliant. -/
def spec_status (f : PPEFlags) (score : ℚ) : String :=
  if f.helmet && f.vest && f.gloves then
    (if score < 80 then ("Partially Compliant") else ("Compliant"))
  else ("Non-Compliant")

/-- The boundary example input of the spec: helmet, vest, goggles, boots and
mask present, gloves absent. -/
def c3_input : DetectionData := flagsData ⟨true, true, false, true, true, true⟩

/-- Row of the workers table. -/
structure Worker where
  id : ℤ
  name : String
  department : String
  position : String
deriving DecidableEq

/-- Row of the ppe_detections table.  The timestamp is modelled at
calendar-day granularity (an integer day index): every date-sensitive
query in the source compares `DATE(timestamp)` with a calendar date. -/
structure DetectionEvent where
  id : ℤ
  worker_id : ℤ
  timestamp : ℤ
  helmet : Bool
  vest : Bool
  gloves : Bool
  goggles : Bool
  boots : Bool
  mask : Bool
  confidence : ℚ
  camera_location : String
deriving DecidableEq

/-- Row of the alerts table; `resolved` is the INTEGER column with
DEFAULT 0. -/
structure Alert where
  id : ℤ
  worker_id : ℤ
  timestamp : ℤ
  violation_type : String
  severity : String
  resolved : ℤ
  description : String
deriving DecidableEq

/-- The sqlite database: workers, ppe_detections and alerts tables. -/
structure Store where
  workers : List Worker
  events : List DetectionEvent
  alerts : List Alert
deriving DecidableEq

/-- SQL AVG over a 0-1 indicator expression: the fraction of rows
satisfying the predicate, and NULL on an empty row set, which every caller
in the source coalesces to 0 (`or 0` / the ELSE branch of its guard). -/
def sqlAvg (rows : List DetectionEvent) (f : DetectionEvent → Bool) : ℚ :=
  if rows.length = 0 then 0 else ((rows.filter f).length : ℚ) / (rows.length : ℚ)

/-- Per-item average PPE usage percentages of the dashboard payload. -/
structure AvgPPE where
  helmet : ℚ
  vest : ℚ
  gloves : ℚ
  goggles : ℚ
  boots : ℚ
  mask : ℚ
deriving DecidableEq

/-- Payload of GET /api/dashboard_stats. -/
structure Stats where
  total_workers : ℕ
  today_detections : ℕ
  active_alerts : ℕ
  overall_compliance : ℚ
  avg_ppe_usage : AvgPPE
deriving DecidableEq

/-- Embedding of `dashboard_stats` (src/app.py lines 105-152).  Note the
source computes `compliant_detections` with
`SELECT COUNT(*) FROM ppe_detections WHERE helmet = 1 AND vest = 1 AND
gloves = 1` — without any date filter — while `today_detections` counts
only rows whose date is today. -/
def dashboard_stats (s : Store) (today : ℤ) : Stats :=
  let todayRows := s.events.filter (fun e => e.timestamp == today)
  let today_detections := todayRows.length
  let avg_ppe : AvgPPE :=
    ⟨pyRound1 (sqlAvg todayRows (fun e => e.helmet) * 100),
     pyRound1 (sqlAvg todayRows (fun e => e.vest) * 100),
     pyRound1 (sqlAvg todayRows (fun e => e.gloves) * 100),
     pyRound1 (sqlAvg todayRows (fun e => e.goggles) * 100),
     pyRound1 (sqlAvg todayRows (fun e => e.boots) * 100),
     pyRound1 (sqlAvg todayRows (fun e => e.mask) * 100)⟩
  let active_alerts := (s.alerts.filter (fun a => a.resolved == 0)).length
  let compliant_detections := (s.events.filter (fun e => e.helmet && e.vest && e.gloves)).length
  let overall_compliance : ℚ :=
    if today_detections > 0
    then pyRound1 ((compliant_detections : ℚ) / (today_detections : ℚ) * 100)
    else 0
  ⟨s.workers.length, today_detections, active_alerts, overall_compliance, avg_ppe⟩

/-- Entry of the GET /api/worker_compliance payload. -/
structure WorkerSummary where
  id : ℤ
  name : String
  department : String
  position : String
  total_detections : ℕ
  helmet_rate : ℚ
  vest_rate : ℚ
  gloves_rate : ℚ
  compliance_score : ℚ
deriving DecidableEq

/-- Embedding of `worker_compliance` (src/app.py lines 191-222): workers
LEFT JOIN ppe_detections grouped by worker, so every worker produces one
row; COUNT(p.id) and the AVG(CASE ...) rates are taken over the worker's
joined detection rows, with AVG NULL (coalesced to 0) for workers without
events. -/
def worker_compliance (s : Store) : List WorkerSummary :=
  s.workers.map (fun w =>
    let rows := s.events.filter (fun e => e.worker_id == w.id)
    let helmet_rate := sqlAvg rows (fun e => e.helmet)
    let vest_rate := sqlAvg rows (fun e => e.vest)
    let gloves_rate := sqlAvg rows (fun e => e.gloves)
    { id := w.id, name := w.name, department := w.department, position := w.position,
      total_detections := rows.length,
      helmet_rate := pyRound1 (helmet_rate * 100),
      vest_rate := pyRound1 (vest_rate * 100),
      gloves_rate := pyRound1 (gloves_rate * 100),
      compliance_score := pyRound1 ((helmet_rate + vest_rate + gloves_rate) / 3 * 100) })

/-- Body of the POST /api/resolve_alert response. -/
structure ResolveResponse where
  success : Bool
deriving DecidableEq

/-- Effect of `UPDATE alerts SET resolved = 1 WHERE id = ?` on one row. -/
def markResolved (alert_id : ℤ) (a : Alert) : Alert :=
  if a.id == alert_id then { a with resolved := 1 } else a

/-- Embedding of `resolve_alert` (src/app.py lines 251-261): runs the
UPDATE against the alerts table and returns success True unconditionally,
whether or not any row matched. -/
def resolve_alert (s : Store) (alert_id : ℤ) : ResolveResponse × Store :=
  (⟨true⟩, { s with alerts := s.alerts.map (markResolved alert_id) })

/-- Entry of the GET /api/compliance_trends payload; `date` is the day
index that the source formats as a YYYY-MM-DD string. -/
structure DayStat where
  date : ℤ
  compliance_rate : ℚ
  total_detections : ℕ
deriving DecidableEq

/-- Embedding of `compliance_trends` (src/app.py lines 263-289): the loop
`for i in range(6, -1, -1)` visits offsets 6, 5, ..., 0 and appends, for
the date `now - i` days, the day's row count and the rounded percentage of
rows with helmet, vest and gloves all 1 (0 when the day has no rows). -/
def compliance_trends (s : Store) (today : ℤ) : List DayStat :=
  (List.range 7).map (fun (k : ℕ) =>
    let i : ℤ := 6 - (k : ℤ)
    let date := today - i
    let rows := s.events.filter (fun e => e.timestamp == date)
    let total := rows.length
    let avg := sqlAvg rows (fun e => e.helmet && e.vest && e.gloves)
    let compliance_rate : ℚ := if total > 0 then pyRound1 (avg * 100) else 0
    ⟨date, compliance_rate, total⟩)

/-- Column values of an INSERT INTO alerts statement (the id is assigned
by the database). -/
structure AlertInsert where
  worker_id : ℤ
  timestamp : ℤ
  violation_type : String
  severity : String
  description : String
deriving DecidableEq

/-- Violation check of `generate_sample_data` (src/app.py lines 323-339):
when helmet, vest or gloves is falsy an alert row is built, with the
missing required items joined into the violation type, severity High when
the helmet is missing and Medium otherwise. -/
def check_violation (wid : ℤ) (ts : ℤ) (loc : String) (d : PPEFlags) : Option AlertInsert :=
  if !d.helmet || !d.vest || !d.gloves then
    let violation_type : List String :=
      (if !d.helmet then [("No Helmet")] else []) ++
      (if !d.vest then [("No Safety Vest")] else []) ++
      (if !d.gloves then [("No Gloves")] else [])
    let severity : String := if !d.helmet then ("High") else ("Medium")
    some ⟨wid, ts, String.intercalate (", ") violation_type, severity,
      ("PPE violation detected at ") ++ loc⟩
  else none

/-- One ingestion cycle of `generate_sample_data` (src/app.py lines
292-344): insert the detection row, then insert an alert row (resolved
defaulting to 0) exactly when the violation check fires.  `eid` and `aid`
are the row ids the database would assign. -/
def generate_step (s : Store) (eid aid wid ts : ℤ) (d : PPEFlags) (conf : ℚ)
    (loc : String) : Store :=
  let events := s.events ++
    [⟨eid, wid, ts, d.helmet, d.vest, d.gloves, d.goggles, d.boots, d.mask, conf, loc⟩]
  match check_violation wid ts loc d with
  | some ai =>
      { s with events := events,
               alerts := s.alerts ++
                 [⟨aid, ai.worker_id, ai.timestamp, ai.violation_type, ai.severity, 0,
                   ai.description⟩] }
  | none => { s with events := events }

/-- Detection events whose timestamp falls on calendar day `d`. -/
def spec_eventsOn (s : Store) (d : ℤ) : List DetectionEvent :=
  s.events.filter (fun e => e.timestamp == d)

/-- An event is fully compliant on required PPE when helmet, vest and
gloves are all present. -/
def spec_fullyCompliant (e : DetectionEvent) : Bool :=
  e.helmet && e.vest && e.gloves

/-- Overall compliance as worded by the claim: the rounded percentage of
today's events in which helmet, vest and gloves are all present, 0 when
there are no events today. -/
def spec_overall_compliance (s : Store) (today : ℤ) : ℚ :=
  if (spec_eventsOn s today).length = 0 then 0
  else pyRound1
    ((((spec_eventsOn s today).filter (fun e => spec_fullyCompliant e)).length : ℚ)
      / ((spec_eventsOn s today).length : ℚ) * 100)

/-- Day entry as worded by the claim: the day's event count and the
rounded percentage of that day's events that are fully compliant on
required PPE, both 0 when the day has no events. -/
def spec_dayStat (s : Store) (d : ℤ) : DayStat :=
  ⟨d,
   if (spec_eventsOn s d).length = 0 then 0
   else pyRound1
     ((((spec_eventsOn s d).filter (fun e => spec_fullyCompliant e)).length : ℚ)
       / ((spec_eventsOn s d).length : ℚ) * 100),
   (spec_eventsOn s d).length⟩

/-- Trend sequence as worded by the claim: one entry per calendar day of
the trailing 7-day window ending today, oldest first. -/
def spec_trends (s : Store) (today : ℤ) : List DayStat :=
  (List.range 7).map (fun (j : ℕ) => spec_dayStat s (today - 6 + (j : ℤ)))

/-- Detection events of one worker. -/
def spec_workerEvents (s : Store) (wid : ℤ) : List DetectionEvent :=
  s.events.filter (fun e => e.worker_id == wid)

/-- Presence rate of one PPE item among a worker's events, as a fraction;
0 for a worker without events. -/
def spec_rate (s : Store) (wid : ℤ) (f : DetectionEvent → Bool) : ℚ :=
  if (spec_workerEvents s wid).length = 0 then 0
  else (((spec_workerEvents s wid).filter f).length : ℚ)
    / ((spec_workerEvents s wid).length : ℚ)

/-- Worker summary as worded by the claim: event count, per-item presence
rates as rounded percentages, and a compliance score equal to the mean of
the three required-item presence rates times 100, rounded to one
decimal. -/
def spec_workerSummary (s : Store) (w : Worker) : WorkerSummary :=
  { id := w.id, name := w.name, department := w.department, position := w.position,
    total_detections := (spec_workerEvents s w.id).length,
    helmet_rate := pyRound1 (spec_rate s w.id (fun e => e.helmet) * 100),
    vest_rate := pyRound1 (spec_rate s w.id (fun e => e.vest) * 100),
    gloves_rate := pyRound1 (spec_rate s w.id (fun e => e.gloves) * 100),
    compliance_score := pyRound1
      ((spec_rate s w.id (fun e => e.helmet) + spec_rate s w.id (fun e => e.vest)
        + spec_rate s w.id (fun e => e.gloves)) / 3 * 100) }

/-- Worker-compliance payload as worded by the claim: one summary for
every worker in the workers table. -/
def spec_worker_summaries (s : Store) : List WorkerSummary :=
  s.workers.map (spec_workerSummary s)

/-- Frame condition on one alert row under resolve: every field other
than `resolved` is unchanged, `resolved` becomes 1 on the matching id and
is untouched elsewhere.  The first component is the old row, the second
the row after the resolve. -/
def framePreserved (alert_id : ℤ) (p : Alert × Alert) : Bool :=
  p.2.id == p.1.id && p.2.worker_id == p.1.worker_id &&
  p.2.timestamp == p.1.timestamp && p.2.violation_type == p.1.violation_type &&
  p.2.severity == p.1.severity && p.2.description == p.1.description &&
  (if p.1.id == alert_id then p.2.resolved == 1 else p.2.resolved == p.1.resolved)

/-- A store with no rows at all. -/
def empty_store : Store := ⟨[], [], []⟩

/-- A fully compliant detection on day 0. -/
def c1_event_past_a : DetectionEvent :=
  ⟨1, 1, 0, true, true, true, true, true, true, 9/10, ("Gate A")⟩

/-- A second fully compliant detection on day 0. -/
def c1_event_past_b : DetectionEvent :=
  ⟨2, 1, 0, true, true, true, true, true, true, 9/10, ("Gate B")⟩

/-- A detection on day 1 with the helmet missing. -/
def c1_event_today : DetectionEvent :=
  ⟨3, 1, 1, false, true, true, true, true, true, 9/10, ("Gate A")⟩

/-- Store exposing the dashboard divergence: two fully compliant events
on day 0 and one non-compliant event on day 1. -/
def c1_store : Store := ⟨[], [c1_event_past_a, c1_event_past_b, c1_event_today], []⟩

/-- A small store used to instantiate the universally quantified theorems:
one worker, one event of that worker on day 10 with gloves missing, one
event of an unknown worker on day 9, and one unresolved alert with id 1. -/
def sample_store : Store :=
  ⟨[⟨1, ("John Smith"), ("Construction"), ("Foreman")⟩],
   [⟨1, 1, 10, true, true, false, true, false, true, 9/10, ("Gate A")⟩,
    ⟨2, 2, 9, true, true, true, false, true, false, 8/10, ("Workshop")⟩],
   [⟨1, 1, 10, ("No Gloves"), ("Medium"), 0, ("PPE violation detected at Gate A")⟩]⟩

/-- C3 counterexample.  On the spec's boundary example (all items present
except gloves) the analyzer does not return status "Partially Compliant":
gloves is a required item, so the required-missing branch fires. -/
theorem c3_boundary_status_refuted :
    (analyze_ppe_compliance c3_input).status ≠ ("Partially Compliant") := by
  simp +decide [c3_input, flagsData, analyze_ppe_compliance, pyRound1, round_eq]

/-- C3 (amended): on flags with only gloves missing the analyzer returns
required_missing = [gloves], compliance_score = 76.7 exactly, and status
"Non-Compliant" (not "Partially Compliant": a missing required item forces
the Non-Compliant branch regardless of the 76.7 score). -/
theorem c3_boundary_example :
    (analyze_ppe_compliance c3_input).required_missing = [("gloves")] ∧
    (analyze_ppe_compliance c3_input).compliance_score = 767 / 10 ∧
    (analyze_ppe_compliance c3_input).status = ("Non-Compliant") := by
  refine ⟨?_, ?_, ?_⟩ <;>
    simp +decide [c3_input, flagsData, analyze_ppe_compliance, pyRound1, round_eq] <;>
    norm_num

/-- C4: for every combination of the six PPE flags, the analyzer's status
equals the spec's classification rule applied to the analyzer's score:
Non-Compliant iff a required item is missing, else Partially Compliant iff
the score is strictly below 80, else Compliant. -/
theorem analyze_status_classification (f : PPEFlags) :
    (analyze_ppe_compliance (flagsData f)).status
      = spec_status f (analyze_ppe_compliance (flagsData f)).compliance_score := by
  obtain ⟨h, v, g, go, b, m⟩ := f
  cases h <;> cases v <;> cases g <;> cases go <;> cases b <;> cases m <;>
    simp +decide [flagsData, analyze_ppe_compliance, spec_status, pyRound1, round_eq]

/-- C4 witness: the classification theorem at the all-required-present,
all-optional-missing combination. -/
theorem analyze_status_classification_witness :
    (analyze_ppe_compliance (flagsData ⟨true, true, true, false, false, false⟩)).status
      = spec_status ⟨true, true, true, false, false, false⟩
          (analyze_ppe_compliance (flagsData ⟨true, true, true, false, false, false⟩)).compliance_score :=
  analyze_status_classification ⟨true, true, true, false, false, false⟩

/-- C5: for every combination of the six PPE flags, the analyzer's score is
exactly the spec formula (70 times the required fraction plus 30 times the
optional fraction, rounded to one decimal) and lies in the interval from 0
to 100. -/
theorem analyze_score_formula (f : PPEFlags) :
    (analyze_ppe_compliance (flagsData f)).compliance_score = spec_compliance_score f ∧
    0 ≤ (analyze_ppe_compliance (flagsData f)).compliance_score ∧
    (analyze_ppe_compliance (flagsData f)).compliance_score ≤ 100 := by
  obtain ⟨h, v, g, go, b, m⟩ := f
  cases h <;> cases v <;> cases g <;> cases go <;> cases b <;> cases m <;>
    refine ⟨?_, ?_, ?_⟩ <;>
    simp [flagsData, analyze_ppe_compliance, spec_compliance_score,
      spec_requiredPresent, spec_optionalPresent, pyRound1, round_eq] <;>
    norm_num

/-- C5 witness: the score formula theorem at the everything-missing
combination. -/
theorem analyze_score_formula_witness :
    (analyze_ppe_compliance (flagsData ⟨false, false, false, false, false, false⟩)).compliance_score
        = spec_compliance_score ⟨false, false, false, false, false, false⟩ ∧
    0 ≤ (analyze_ppe_compliance (flagsData ⟨false, false, false, false, false, false⟩)).compliance_score ∧
    (analyze_ppe_compliance (flagsData ⟨false, false, false, false, false, false⟩)).compliance_score ≤ 100 :=
  analyze_score_formula ⟨false, false, false, false, false, false⟩

/-- C9: the analyzer never rejects an input with missing PPE keys; its
result on any input equals its result on the same input with every missing
key filled in as false, because each key is read with
`detection_data.get(ppe, 0)`. -/
theorem analyze_missing_keys_default (d : DetectionData) :
    analyze_ppe_compliance d = analyze_ppe_compliance (fillMissing d) := by
  simp only [analyze_ppe_compliance, fillMissing, Option.getD_some]

/-- C9 witness: the missing-key theorem at the empty mapping (all six keys
absent). -/
theorem analyze_missing_keys_default_witness :
    analyze_ppe_compliance ⟨none, none, none, none, none, none⟩
      = analyze_ppe_compliance (fillMissing ⟨none, none, none, none, none, none⟩) :=
  analyze_missing_keys_default ⟨none, none, none, none, none, none⟩

/-- Helper: resolving is idempotent on a single alert row. -/
theorem markResolved_idem (alert_id : ℤ) (a : Alert) :
    markResolved alert_id (markResolved alert_id a) = markResolved alert_id a := by
  unfold markResolved
  by_cases h : a.id == alert_id <;> simp [h]

/-- Helper: after the UPDATE, every alert row matching the id has
resolved = 1. -/
theorem filter_map_markResolved (alert_id : ℤ) (l : List Alert) :
    (((l.map (markResolved alert_id)).filter (fun a => a.id == alert_id)).all
      (fun a => a.resolved == 1)) = true := by
  induction l with
  | nil => rfl
  | cons a t ih =>
    simp only [List.map_cons, List.filter_cons]
    by_cases h : a.id == alert_id <;> simp [markResolved, h, ih]

/-- Helper: the UPDATE touches nothing but the resolved field of matching
rows. -/
theorem zip_map_markResolved (alert_id : ℤ) (l : List Alert) :
    ((l.zip (l.map (markResolved alert_id))).all (framePreserved alert_id)) = true := by
  induction l with
  | nil => rfl
  | cons a t ih =>
    simp only [List.map_cons, List.zip_cons_cons, List.all_cons, ih, Bool.and_true]
    by_cases h : a.id == alert_id <;> simp [markResolved, framePreserved, h]

/-- C1 (code divergence): the dashboard store counts fully compliant
events of every day in the numerator but only today's events in the
denominator.  With two fully compliant events on day 0 and a single
non-compliant event on day 1, the code reports an overall compliance of
200 percent on day 1, while the claimed fraction of today's compliant
events is 0. -/
theorem dashboard_overall_compliance_divergence :
    (dashboard_stats c1_store 1).overall_compliance = 200 ∧
    spec_overall_compliance c1_store 1 = 0 := by
  constructor <;>
    simp [dashboard_stats, spec_overall_compliance, spec_eventsOn, spec_fullyCompliant,
      c1_store, c1_event_past_a, c1_event_past_b, c1_event_today, sqlAvg,
      pyRound1, round_eq] <;>
    norm_num

/-- C2 counterexample: resolving an alert id that does not exist still
returns success True — the store is empty, so no alert with id 1 exists,
refuting that success is false exactly when the id is unknown. -/
theorem resolve_missing_id_reports_success :
    (resolve_alert empty_store 1).1.success = true ∧
    empty_store.alerts.length = 0 :=
  ⟨rfl, rfl⟩

/-- C2 (amended): the resolve operation returns success True for every
alert id, existing or not; resolving the same id twice returns success
True both times, the second resolve leaves the store unchanged, and every
alert row matching the id has resolved = 1 afterwards. -/
theorem resolve_always_success_idempotent (s : Store) (alert_id : ℤ) :
    (resolve_alert s alert_id).1.success = true ∧
    (resolve_alert (resolve_alert s alert_id).2 alert_id).1.success = true ∧
    (resolve_alert (resolve_alert s alert_id).2 alert_id).2 = (resolve_alert s alert_id).2 ∧
    (((resolve_alert s alert_id).2.alerts.filter (fun a => a.id == alert_id)).all
      (fun a => a.resolved == 1)) = true := by
  refine ⟨rfl, rfl, ?_, filter_map_markResolved alert_id s.alerts⟩
  simp only [resolve_alert, List.map_map]
  congr 1
  exact List.map_congr_left (fun a _ => markResolved_idem alert_id a)

/-- C2 witness: the amended resolve theorem at the sample store and the
existing alert id 1. -/
theorem resolve_always_success_idempotent_witness :
    (resolve_alert sample_store 1).1.success = true ∧
    (resolve_alert (resolve_alert sample_store 1).2 1).1.success = true ∧
    (resolve_alert (resolve_alert sample_store 1).2 1).2 = (resolve_alert sample_store 1).2 ∧
    (((resolve_alert sample_store 1).2.alerts.filter (fun a => a.id == 1)).all
      (fun a => a.resolved == 1)) = true :=
  resolve_always_success_idempotent sample_store 1

/-- C10: resolve changes at most the resolved field of alerts matching the
id (setting it to 1); workers, detection events, every other alert field
and every non-matching alert row are unchanged, and no alert row is added
or removed. -/
theorem resolve_frame_effect (s : Store) (alert_id : ℤ) :
    (resolve_alert s alert_id).2.workers = s.workers ∧
    (resolve_alert s alert_id).2.events = s.events ∧
    (resolve_alert s alert_id).2.alerts.length = s.alerts.length ∧
    ((s.alerts.zip (resolve_alert s alert_id).2.alerts).all
      (framePreserved alert_id)) = true := by
  refine ⟨rfl, rfl, ?_, zip_map_markResolved alert_id s.alerts⟩
  simp [resolve_alert]

/-- C10 witness: the frame theorem at the sample store and alert id 1. -/
theorem resolve_frame_effect_witness :
    (resolve_alert sample_store 1).2.workers = sample_store.workers ∧
    (resolve_alert sample_store 1).2.events = sample_store.events ∧
    (resolve_alert sample_store 1).2.alerts.length = sample_store.alerts.length ∧
    ((sample_store.alerts.zip (resolve_alert sample_store 1).2.alerts).all
      (framePreserved 1)) = true :=
  resolve_frame_effect sample_store 1

/-- C6: one ingestion cycle creates an alert row exactly when helmet, vest
or gloves is missing on the event; the existing alert rows are untouched,
and the created row has severity High exactly when the helmet is missing
(Medium otherwise) and starts unresolved. -/
theorem generate_step_alerting (s : Store) (eid aid wid ts : ℤ) (d : PPEFlags)
    (conf : ℚ) (loc : String) :
    (generate_step s eid aid wid ts d conf loc).alerts.length
        = s.alerts.length + (if d.helmet && d.vest && d.gloves then 0 else 1) ∧
    (generate_step s eid aid wid ts d conf loc).alerts.take s.alerts.length = s.alerts ∧
    (((generate_step s eid aid wid ts d conf loc).alerts.drop s.alerts.length).all
      (fun a => (a.severity == (if d.helmet then ("Medium") else ("High")))
        && (a.resolved == 0))) = true := by
  obtain ⟨h, v, g, go, b, m⟩ := d
  cases h <;> cases v <;> cases g <;>
    simp [generate_step, check_violation, List.take_left, List.drop_left]

/-- C6 witness: the alerting theorem at the empty store and an event with
the helmet missing. -/
theorem generate_step_alerting_witness :
    (generate_step empty_store 1 1 2 5 ⟨false, true, true, false, false, false⟩
        (9/10) ("Gate A")).alerts.length
        = empty_store.alerts.length
          + (if (false : Bool) && (true : Bool) && (true : Bool) then 0 else 1) ∧
    (generate_step empty_store 1 1 2 5 ⟨false, true, true, false, false, false⟩
        (9/10) ("Gate A")).alerts.take empty_store.alerts.length = empty_store.alerts ∧
    (((generate_step empty_store 1 1 2 5 ⟨false, true, true, false, false, false⟩
        (9/10) ("Gate A")).alerts.drop empty_store.alerts.length).all
      (fun a => (a.severity == (if (false : Bool) then ("Medium") else ("High")))
        && (a.resolved == 0))) = true :=
  generate_step_alerting empty_store 1 1 2 5 ⟨false, true, true, false, false, false⟩
    (9/10) ("Gate A")

/-- C7: the trends payload has exactly 7 entries, one per calendar day of
the trailing window ending today in ascending date order, each carrying
that day's event count and rounded fully-compliant percentage, with count
0 and rate 0 for days without events. -/
theorem trends_seven_day_window (s : Store) (today : ℤ) :
    (compliance_trends s today).length = 7 ∧
    compliance_trends s today = spec_trends s today := by
  constructor
  · simp only [compliance_trends, List.length_map, List.length_range]
  · simp only [compliance_trends, spec_trends]
    refine List.map_congr_left (fun k _ => ?_)
    have hdate : today - (6 - (k : ℤ)) = today - 6 + (k : ℤ) := by ring
    simp only [hdate, spec_dayStat, spec_eventsOn, spec_fullyCompliant, sqlAvg]
    by_cases h0 : (s.events.filter (fun e => e.timestamp == today - 6 + (k : ℤ))).length = 0 <;>
      simp [h0, Nat.pos_of_ne_zero]

/-- C7 witness: the trends theorem at the sample store with day 10 as
today. -/
theorem trends_seven_day_window_witness :
    (compliance_trends sample_store 10).length = 7 ∧
    compliance_trends sample_store 10 = spec_trends sample_store 10 :=
  trends_seven_day_window sample_store 10

/-- Helper: rounding zero to one decimal gives zero. -/
theorem pyRound1_zero : pyRound1 0 = 0 := by
  simp [pyRound1]

/-- C8: the worker-compliance payload has one entry per worker of the
workers table, each equal to the claimed summary (per-item presence rates
and a score that is the mean of the three required-item rates times 100,
rounded); workers without events are included with count 0 and all rates
and score 0. -/
theorem worker_compliance_summaries (s : Store) :
    (worker_compliance s).length = s.workers.length ∧
    worker_compliance s = spec_worker_summaries s ∧
    ((worker_compliance s).all (fun ws =>
      (ws.total_detections != 0) ||
      (decide (ws.helmet_rate = 0) && decide (ws.vest_rate = 0) &&
       decide (ws.gloves_rate = 0) && decide (ws.compliance_score = 0)))) = true := by
  have heq : worker_compliance s = spec_worker_summaries s := by
    simp only [worker_compliance, spec_worker_summaries]
    refine List.map_congr_left (fun w _ => ?_)
    simp only [spec_workerSummary, spec_rate, spec_workerEvents, sqlAvg]
  refine ⟨?_, heq, ?_⟩
  · simp only [worker_compliance, List.length_map]
  · rw [heq]
    simp only [spec_worker_summaries, List.all_eq_true]
    intro ws hws
    obtain ⟨w, _, rfl⟩ := List.mem_map.mp hws
    simp only [Bool.or_eq_true, Bool.and_eq_true, decide_eq_true_eq, bne_iff_ne, ne_eq]
    by_cases h0 : (spec_workerEvents s w.id).length = 0
    · refine Or.inr ?_
      simp [spec_workerSummary, spec_rate, h0, pyRound1_zero]
    · refine Or.inl ?_
      simpa [spec_workerSummary] using h0

/-- C8 witness: the worker-compliance theorem at the sample store. -/
theorem worker_compliance_summaries_witness :
    (worker_compliance sample_store).length = sample_store.workers.length ∧
    worker_compliance sample_store = spec_worker_summaries sample_store ∧
    ((worker_compliance sample_store).all (fun ws =>
      (ws.total_detections != 0) ||
      (decide (ws.helmet_rate = 0) && decide (ws.vest_rate = 0) &&
       decide (ws.gloves_rate = 0) && decide (ws.compliance_score = 0)))) = true :=
  worker_compliance_summaries sample_store
